import Mathlib

/-!
Shallow embedding of the webhook-relay core of `src/app.py` (a Flask app
relaying WhatsApp Business Cloud API events), together with theorems that
settle the spec's claims about it.

The modelled logic is:
  * the POST `/webhook` handler (lines 63-134 of `src/app.py`): inbound
    message normalization and status-update correlation over the global
    `MESSAGES_STORE` list;
  * the POST `/send_message` handler (lines 139-190): validation, the
    provider call, message-id extraction and the outbound append.

Modelling conventions:
  * Python dict keys that may be absent become `Option` fields (absence and
    JSON `null` are conflated, as both read back as `None` under `.get`);
  * Python truthiness of a possibly-absent string (`if sender_id and
    text_body:`) is `truthy` below: `None` and `""` are falsy;
  * `datetime.datetime.now().isoformat()` is nondeterministic, so the
    current time is threaded as an explicit `now : String` argument;
  * a Python exception escaping the handler's `try` is modelled by an
    error flag: the processing functions return the store together with
    `Bool` (`true` = no exception).  Mutations of the global store made
    before the exception persist, which the flag-threading preserves;
  * `int(s)` on the provider's string-encoded epoch timestamp is modelled
    by `parsePyInt` (failure = `ValueError`);
  * `datetime.datetime.fromtimestamp(n).isoformat()` is modelled by
    `epochToIso`, a civil-calendar conversion from epoch seconds (the
    source uses the process's local timezone; we fix UTC).
-/

/-- The canonical stored message: the dict appended to `MESSAGES_STORE`.
`Option` fields are keys that some records lack (inbound records have no
`status`/`recipient`; outbound records have no `type`). -/
structure Record where
  id : Option String
  sender : Option String
  recipient : Option String := none
  text : String
  direction : String
  timestamp : String
  mtype : Option String := none
  status : Option String := none
  timestamp_status_update : Option String := none
  deriving Repr, DecidableEq

/-- The `text` object of an inbound text message (`message_data['text']`). -/
structure TextObj where
  body : Option String
  deriving Repr, DecidableEq

/-- The `image`/`video` object of an inbound media message. -/
structure MediaObj where
  caption : Option String
  deriving Repr, DecidableEq

/-- The `document` object of an inbound document message. -/
structure DocObj where
  filename : Option String
  deriving Repr, DecidableEq

/-- One element of `value['messages']` (`message_data` in the source). -/
structure MessageData where
  mtype : Option String
  sender : Option String
  mid : Option String
  text : Option TextObj := none
  image : Option MediaObj := none
  document : Option DocObj := none
  video : Option MediaObj := none
  deriving Repr, DecidableEq

/-- One element of `value['statuses']` (`status_data` in the source). -/
structure StatusData where
  id : Option String
  status : Option String
  recipient_id : Option String
  timestamp : Option String
  deriving Repr, DecidableEq

/-- The `value` object of a change. -/
structure ChangeValue where
  messages : Option (List MessageData) := none
  statuses : Option (List StatusData) := none
  deriving Repr, DecidableEq

/-- One element of `entry['changes']`. -/
structure Change where
  field : Option String
  value : Option ChangeValue
  deriving Repr, DecidableEq

/-- One element of `data['entry']`. -/
structure Entry where
  changes : List Change
  deriving Repr, DecidableEq

/-- The parsed POST `/webhook` body.  `data.get('entry', [])` makes an
absent `entry` key indistinguishable from `[]`, so it is a plain list. -/
structure WebhookBody where
  obj : Option String
  entry : List Entry
  deriving Repr, DecidableEq

/-- Python truthiness of a possibly-absent string: `None` and `""` are
falsy, every other string is truthy. -/
def truthy : Option String → Bool
  | none => false
  | some s => !(s == "")

/-- Zero-pad a number to two digits, as `datetime.isoformat` prints
month/day/hour/minute/second fields. -/
def pad2 (n : Nat) : String :=
  if n < 10 then "0" ++ toString n else toString n

/-- Zero-pad a year to four digits. -/
def pad4 (n : Nat) : String :=
  if n < 10 then "000" ++ toString n
  else if n < 100 then "00" ++ toString n
  else if n < 1000 then "0" ++ toString n
  else toString n

/-- Civil date from days since the Unix epoch (proleptic Gregorian
calendar, Howard Hinnant's `civil_from_days` algorithm). -/
def civilFromDays (z0 : Int) : Int × Nat × Nat :=
  let z := z0 + 719468
  let era : Int := z.fdiv 146097
  let doe : Nat := (z - era * 146097).toNat
  let yoe : Nat := (doe - doe / 1460 + doe / 36524 - doe / 146096) / 365
  let y : Int := (yoe : Int) + era * 400
  let doy : Nat := doe - (365 * yoe + yoe / 4 - yoe / 100)
  let mp : Nat := (5 * doy + 2) / 153
  let d : Nat := doy - (153 * mp + 2) / 5 + 1
  let m : Nat := if mp < 10 then mp + 3 else mp - 9
  (if m ≤ 2 then y + 1 else y, m, d)

/-- Model of `datetime.datetime.fromtimestamp(t).isoformat()` for whole
epoch seconds, rendered in UTC: `YYYY-MM-DDTHH:MM:SS`. -/
def epochToIso (t : Int) : String :=
  let days := t.fdiv 86400
  let secs := (t - days * 86400).toNat
  let (y, m, d) := civilFromDays days
  pad4 y.toNat ++ "-" ++ pad2 m ++ "-" ++ pad2 d ++ "T" ++
    pad2 (secs / 3600) ++ ":" ++ pad2 (secs % 3600 / 60) ++ ":" ++ pad2 (secs % 60)

/-- The type-dispatch of `src/app.py` lines 86-98, deriving `text_body`
from an inbound message.  Returns `.error ()` exactly when the source
raises: an absent `type` reaches the `else` branch, where
`message_type.upper()` is an `AttributeError` on `None`. -/
def deriveText (m : MessageData) : Except Unit (Option String) :=
  if m.mtype = some "text" then
    .ok (m.text.bind TextObj.body)
  else if m.mtype = some "image" then
    .ok (some ("[Image] " ++ ((m.image.bind MediaObj.caption).getD "No caption")))
  else if m.mtype = some "document" then
    .ok (some ("[Document] " ++ ((m.document.bind DocObj.filename).getD "Unknown file")))
  else if m.mtype = some "audio" then
    .ok (some "[Audio message]")
  else if m.mtype = some "video" then
    .ok (some ("[Video] " ++ ((m.video.bind MediaObj.caption).getD "No caption")))
  else
    match m.mtype with
    | some t => .ok (some ("[" ++ t.toUpper ++ " message]"))
    | none => .error ()

/-- The inbound record built at `src/app.py` lines 101-108. -/
def mkInRecord (m : MessageData) (t : String) (now : String) : Record :=
  { id := m.mid
    sender := m.sender
    text := t
    direction := "in"
    timestamp := now
    mtype := m.mtype }

/-- The `for message_data in value.get('messages', [])` loop
(`src/app.py` lines 76-110).  Returns the store after the loop together
with `false` if an exception aborted it (keeping the appends already
made). -/
def processMessagesList (now : String) : List MessageData → List Record → List Record × Bool
  | [], store => (store, true)
  | m :: ms, store =>
    match deriveText m with
    | .error _ => (store, false)
    | .ok tb =>
      match tb with
      | some t =>
        if truthy m.sender && !(t == "") then
          processMessagesList now ms (store ++ [mkInRecord m t now])
        else
          processMessagesList now ms store
      | none => processMessagesList now ms store

/-- Accumulate the value of a decimal digit string; `none` on a
non-digit character. -/
def digitsVal : List Char → Nat → Option Nat
  | [], acc => some acc
  | c :: cs, acc =>
    if c.isDigit then digitsVal cs (acc * 10 + (c.toNat - 48)) else none

/-- Model of Python's `int(s)` on a string: optional sign followed by
decimal digits; `none` where `int` raises `ValueError`.  (Python also
tolerates surrounding whitespace and interior underscores; those corner
cases are not modelled.) -/
def parsePyInt (s : String) : Option Int :=
  match s.data with
  | [] => none
  | '-' :: cs =>
    match cs with
    | [] => none
    | _ => (digitsVal cs 0).map (fun n => -(n : Int))
  | '+' :: cs =>
    match cs with
    | [] => none
    | _ => (digitsVal cs 0).map (fun n => (n : Int))
  | cs => (digitsVal cs 0).map (fun n => (n : Int))

/-- The `for msg in MESSAGES_STORE` correlation loop for one status event
(`src/app.py` lines 123-128): first record with matching `id` and
`direction == 'out'` gets `status` overwritten; `timestamp_status_update`
is set when the event timestamp is truthy; `break` after the first match.
`msg['status'] = status` happens before `int(timestamp_s)`, so a
malformed timestamp (flag `false`) still leaves `status` overwritten. -/
def applyStatusList (s : StatusData) : List Record → List Record × Bool
  | [] => ([], true)
  | r :: rs =>
    if r.id = s.id ∧ r.direction = "out" then
      let r1 := { r with status := s.status }
      if truthy s.timestamp then
        match parsePyInt (s.timestamp.getD "") with
        | some n =>
          ({ r1 with timestamp_status_update := some (epochToIso n) } :: rs, true)
        | none => (r1 :: rs, false)
      else
        (r1 :: rs, true)
    else
      let (rs', ok) := applyStatusList s rs
      (r :: rs', ok)

/-- The `for status_data in value.get('statuses', [])` loop
(`src/app.py` lines 114-128). -/
def processStatusesList : List StatusData → List Record → List Record × Bool
  | [], store => (store, true)
  | s :: ss, store =>
    let (store', ok) := applyStatusList s store
    if ok then processStatusesList ss store' else (store', false)

/-- One change (`src/app.py` lines 71-128): only changes with
`field == 'messages'` are relevant; then `if 'messages' in value: ...
elif 'statuses' in value: ...` — the statuses branch runs only when the
`messages` key is absent. -/
def processChange (now : String) (c : Change) (store : List Record) : List Record × Bool :=
  if c.field = some "messages" then
    let v := c.value.getD {}
    match v.messages with
    | some ms => processMessagesList now ms store
    | none =>
      match v.statuses with
      | some ss => processStatusesList ss store
      | none => (store, true)
  else (store, true)

/-- The `for change in entry.get('changes', [])` loop. -/
def processChangesList (now : String) : List Change → List Record → List Record × Bool
  | [], store => (store, true)
  | c :: cs, store =>
    let (store', ok) := processChange now c store
    if ok then processChangesList now cs store' else (store', false)

/-- The `for entry in data.get('entry', [])` loop. -/
def processEntriesList (now : String) : List Entry → List Record → List Record × Bool
  | [], store => (store, true)
  | e :: es, store =>
    let (store', ok) := processChangesList now e.changes store
    if ok then processEntriesList now es store' else (store', false)

/-- The whole POST branch of `webhook` (`src/app.py` lines 63-134):
returns the resulting store, the response body and the HTTP code —
`("EVENT_RECEIVED", 200)` when no exception escaped, `("ERROR", 500)`
when one did (the `except` at line 132). -/
def webhookPost (now : String) (data : WebhookBody) (store : List Record) :
    List Record × String × Nat :=
  if data.obj = some "whatsapp_business_account" then
    let (store', ok) := processEntriesList now data.entry store
    if ok then (store', "EVENT_RECEIVED", 200) else (store', "ERROR", 500)
  else (store, "EVENT_RECEIVED", 200)

/-- The parsed POST `/send_message` body. -/
structure SendRequest where
  recipient_wa_id : Option String
  message_text : Option String
  deriving Repr, DecidableEq

/-- One element of the provider response's `messages` list. -/
structure MsgIdObj where
  id : Option String
  deriving Repr, DecidableEq

/-- The provider's parsed JSON response body on send. -/
structure RespBody where
  messages : Option (List MsgIdObj) := none
  deriving Repr, DecidableEq

/-- The provider's HTTP response: status code plus parsed body. -/
structure HttpResponse where
  status : Nat
  body : RespBody
  deriving Repr, DecidableEq

/-- Outcome of `send_message_route`, mirroring its four exits:
400 validation error, 500 `requests.exceptions.RequestException`
(carrying the provider detail), 500 generic `except Exception`, and the
200 success JSON (provider body plus extracted message id). -/
inductive SendOutcome where
  | validationError
  | upstreamError (status : Nat) (body : RespBody)
  | unexpectedError
  | success (data : RespBody) (message_id : Option String)
  deriving Repr, DecidableEq

/-- The HTTP status code each `SendOutcome` is returned with. -/
def sendHttpCode : SendOutcome → Nat
  | .validationError => 400
  | .upstreamError _ _ => 500
  | .unexpectedError => 500
  | .success _ _ => 200

/-- The id extraction `response_data.get("messages", [{}])[0].get("id")`
(`src/app.py` line 167).  An absent `messages` key defaults to `[{}]`, whose first
element has no `id`; a present but empty `messages` list makes `[0]`
raise `IndexError` (`.error ()`). -/
def extractMessageId (rd : RespBody) : Except Unit (Option String) :=
  match rd.messages with
  | none => .ok none
  | some [] => .error ()
  | some (x :: _) => .ok x.id

/-- Model of `send_message_route` (`src/app.py` lines 139-190) with the
network call abstracted: `resp` is what `requests.post` returned.
`response.raise_for_status()` raises `requests.exceptions.HTTPError` (a
`RequestException`) exactly for status codes in `[400, 600)`.  An
`IndexError` from the id extraction is not a `RequestException`, so it
lands in the generic `except Exception` handler.  The store is the
global `MESSAGES_STORE`; `phoneNumberId` is `WHATSAPP_PHONE_NUMBER_ID`. -/
def send_message (phoneNumberId : Option String) (req : SendRequest)
    (resp : HttpResponse) (now : String) (store : List Record) :
    List Record × SendOutcome :=
  if !(truthy req.recipient_wa_id && truthy req.message_text) then
    (store, .validationError)
  else if 400 ≤ resp.status && resp.status < 600 then
    (store, .upstreamError resp.status resp.body)
  else
    match extractMessageId resp.body with
    | .error _ => (store, .unexpectedError)
    | .ok mid =>
      (store ++ [{ id := mid
                   sender := phoneNumberId
                   recipient := req.recipient_wa_id
                   text := req.message_text.getD ""
                   direction := "out"
                   timestamp := now
                   status := some "sent" }],
       .success resp.body mid)

/-! Concrete fixtures used by counterexamples and witnesses. -/

/-- A previously stored outbound record with provider id `X`. -/
def outRecX : Record :=
  { id := some "X"
    sender := some "15550001111"
    recipient := some "15552220000"
    text := "hello"
    direction := "out"
    timestamp := "2024-01-01T00:00:00"
    status := some "sent" }

/-- A well-formed inbound text message. -/
def inMsg1 : MessageData :=
  { mtype := some "text"
    sender := some "15552220000"
    mid := some "wamid.IN1"
    text := some { body := some "hi" } }

/-- A delivery-status event for the outbound record `X`. -/
def statX : StatusData :=
  { id := some "X"
    status := some "delivered"
    recipient_id := some "15552220000"
    timestamp := some "1700000000" }

/-- A change value carrying both an inbound-messages list and a
status-updates list. -/
def bothValue : ChangeValue :=
  { messages := some [inMsg1], statuses := some [statX] }

/-- A webhook body whose single change carries both lists. -/
def bothBody : WebhookBody :=
  { obj := some "whatsapp_business_account"
    entry := [⟨[⟨some "messages", some bothValue⟩]⟩] }

/-- A malformed inbound message: its `type` key is absent, so the type
dispatch falls through to `message_type.upper()` on `None`. -/
def badMsg : MessageData :=
  { mtype := none
    sender := some "15553330000"
    mid := some "wamid.BAD" }

/-- An entry whose only message is malformed. -/
def entryBad : Entry := ⟨[⟨some "messages", some { messages := some [badMsg] }⟩]⟩

/-- An entry whose only message is well-formed. -/
def entryGood : Entry := ⟨[⟨some "messages", some { messages := some [inMsg1] }⟩]⟩

/-- A two-entry payload: the malformed entry first, a valid one after it. -/
def twoEntryBody : WebhookBody :=
  { obj := some "whatsapp_business_account"
    entry := [entryBad, entryGood] }

/-- An inbound text message that passes the sender/text drop check but
carries no `id` key. -/
def noIdMsg : MessageData :=
  { mtype := some "text"
    sender := some "15554440000"
    mid := none
    text := some { body := some "yo" } }

/-- A webhook body delivering only `noIdMsg`. -/
def noIdBody : WebhookBody :=
  { obj := some "whatsapp_business_account"
    entry := [⟨[⟨some "messages", some { messages := some [noIdMsg] }⟩]⟩] }

/-- A well-formed send request. -/
def validReq : SendRequest :=
  { recipient_wa_id := some "15552220000", message_text := some "hello" }

/-- A provider 200 response whose `messages` list is present but empty. -/
def emptyMessagesResp : HttpResponse := { status := 200, body := { messages := some [] } }

/-- A provider 200 response with no `messages` key at all. -/
def noMessagesResp : HttpResponse := { status := 200, body := {} }

/-- A provider 500 response. -/
def err500Resp : HttpResponse := { status := 500, body := {} }

/-- An inbound image message with no caption at any level. -/
def imgMsgNC : MessageData := { mtype := some "image", sender := some "1", mid := some "a" }

/-- An inbound video message with no caption at any level. -/
def vidMsgNC : MessageData := { mtype := some "video", sender := some "1", mid := some "b" }

/-- An inbound document message with no filename. -/
def docMsgNC : MessageData := { mtype := some "document", sender := some "1", mid := some "c" }

/-- An inbound audio message. -/
def audMsg : MessageData := { mtype := some "audio", sender := some "1", mid := some "d" }

/-- An inbound message of an unrecognized type. -/
def stickerMsg : MessageData := { mtype := some "sticker", sender := some "1", mid := some "e" }

/-- A send request with an absent recipient. -/
def emptyRecipientReq : SendRequest :=
  { recipient_wa_id := none, message_text := some "hello" }

/-- A status event whose id matches no stored record. -/
def statY : StatusData :=
  { id := some "Y"
    status := some "read"
    recipient_id := some "15552220000"
    timestamp := some "1700000001" }

/-- The status event `statX` with its `recipient_id` removed. -/
def statXNoRecip : StatusData := { statX with recipient_id := none }

/-! ## Theorems settling the claims -/

/-- C1 is false on the code: a change whose value carries BOTH an
inbound-messages list and a status-updates list has only the messages
processed — the `elif 'statuses' in value` branch (`src/app.py` line 113)
is skipped.  Here the store holds the outbound record `outRecX` and the
payload carries a valid inbound message plus a `delivered` status for
`X`, yet afterwards `outRecX` is stored unchanged with
`status = "sent"` and no `timestamp_status_update`. -/
theorem C1_counterexample :
    webhookPost "T1" bothBody [outRecX] =
      ([outRecX, mkInRecord inMsg1 "hi" "T1"], "EVENT_RECEIVED", 200) ∧
    bothValue.messages = some [inMsg1] ∧
    bothValue.statuses = some [statX] ∧
    outRecX.status = some "sent" ∧
    statX.status = some "delivered" ∧
    outRecX.id = statX.id ∧ outRecX.direction = "out" :=
  ⟨rfl, rfl, rfl, rfl, rfl, rfl, rfl⟩

/-- C1 amended: within a relevant change whose value contains an
inbound-messages list, processing the change is exactly processing that
list; any status-updates list in the same change has no effect (statuses
are only handled when the `messages` key is absent). -/
theorem C1_theorem (now : String) (c : Change) (v : ChangeValue)
    (ms : List MessageData) (store : List Record)
    (hf : c.field = some "messages") (hv : c.value = some v)
    (hm : v.messages = some ms) :
    processChange now c store = processMessagesList now ms store := by
  simp [processChange, hf, hv, hm]

/-- Witness for `C1_theorem` at the concrete both-lists change. -/
theorem C1_witness :
    processChange "T1" ⟨some "messages", some bothValue⟩ [outRecX] =
      processMessagesList "T1" [inMsg1] [outRecX] :=
  C1_theorem "T1" ⟨some "messages", some bothValue⟩ bothValue [inMsg1] [outRecX]
    rfl rfl rfl

/-- Once processing of a prefix of the entries raises (error flag
`false`), the remaining entries are never reached: the loop result is
that of the prefix alone. -/
theorem processEntriesList_append_of_err (now : String) (es2 : List Entry) :
    ∀ (es1 : List Entry) (store : List Record),
      (processEntriesList now es1 store).2 = false →
      processEntriesList now (es1 ++ es2) store = processEntriesList now es1 store
  | [], store, h => by simp [processEntriesList] at h
  | e :: es1, store, h => by
    rcases hpc : processChangesList now e.changes store with ⟨store', ok⟩
    simp only [processEntriesList, List.cons_append, hpc] at h ⊢
    cases ok with
    | false => simp
    | true =>
      simp only [if_pos] at h ⊢
      exact processEntriesList_append_of_err now es2 es1 store' h

/-- C2 is false on the code: with a two-entry payload whose FIRST entry
is malformed (a message with no `type`, so `message_type.upper()` raises
on `None`), the exception escapes the loops to the handler's `except`:
the valid second entry is never stored and the response is 500 `ERROR`,
not 200.  (The third conjunct shows the second entry's message alone
would have been stored.) -/
theorem C2_counterexample :
    webhookPost "T1" twoEntryBody [] = ([], "ERROR", 500) ∧
    twoEntryBody.entry = [entryBad, entryGood] ∧
    (processMessagesList "T1" [inMsg1] []).1 = [mkInRecord inMsg1 "hi" "T1"] :=
  ⟨rfl, rfl, rfl⟩

/-- C2 amended: a malformed entry aborts the whole batch.  If processing
a prefix of the entries ends in an exception, the records appended by
that prefix persist, the remaining entries are not processed, and the
request is answered 500 `ERROR` rather than 200. -/
theorem C2_theorem (now : String) (data : WebhookBody) (es1 es2 : List Entry)
    (store : List Record)
    (hobj : data.obj = some "whatsapp_business_account")
    (hent : data.entry = es1 ++ es2)
    (herr : (processEntriesList now es1 store).2 = false) :
    webhookPost now data store = ((processEntriesList now es1 store).1, "ERROR", 500) := by
  have happ := processEntriesList_append_of_err now es2 es1 store herr
  rcases hq : processEntriesList now es1 store with ⟨s', ok⟩
  rw [hq] at herr happ
  simp only at herr
  subst herr
  simp [webhookPost, hobj, hent, happ]

/-- Witness for `C2_theorem` at the concrete two-entry payload. -/
theorem C2_witness :
    webhookPost "T1" twoEntryBody [] =
      ((processEntriesList "T1" [entryBad] []).1, "ERROR", 500) :=
  C2_theorem "T1" twoEntryBody [entryBad] [entryGood] [] rfl rfl (by decide)

/-- C3 is false on the code: an inbound message with a truthy sender and
derived text but no `id` key passes the `if sender_id and text_body`
check (`src/app.py` line 100) and is stored with `id = None` — the
append guards sender and text only, never `id`. -/
theorem C3_counterexample :
    (webhookPost "T1" noIdBody []).1 =
      [{ id := none, sender := some "15554440000", text := "yo",
         direction := "in", timestamp := "T1", mtype := some "text" }] ∧
    truthy noIdMsg.sender = true ∧
    deriveText noIdMsg = .ok (some "yo") :=
  ⟨rfl, rfl, rfl⟩

/-- C3 amended: every record newly appended by inbound normalization has
a truthy (non-empty, present) sender, a non-empty text and
`direction = "in"`; its `id` however is stored exactly as received and
may be null or absent. -/
theorem C3_theorem (now : String) :
    ∀ (ms : List MessageData) (store : List Record) (r : Record),
      r ∈ (processMessagesList now ms store).1 → r ∉ store →
      truthy r.sender = true ∧ r.text ≠ "" ∧ r.direction = "in"
  | [], store, r, hr, hn => by
    simp only [processMessagesList] at hr
    exact absurd hr hn
  | m :: ms, store, r, hr, hn => by
    simp only [processMessagesList] at hr
    cases hdt : deriveText m with
    | error e =>
      rw [hdt] at hr
      exact absurd hr hn
    | ok tb =>
      rw [hdt] at hr
      cases tb with
      | none => exact C3_theorem now ms store r hr hn
      | some t =>
        simp only at hr
        by_cases hc : (truthy m.sender && !(t == "")) = true
        · rw [if_pos hc] at hr
          by_cases hmem : r ∈ store ++ [mkInRecord m t now]
          · have hrm : r = mkInRecord m t now := by
              rcases List.mem_append.1 hmem with h | h
              · exact absurd h hn
              · simpa using h
            subst hrm
            rw [Bool.and_eq_true] at hc
            refine ⟨hc.1, ?_, rfl⟩
            simp only [mkInRecord, ne_eq]
            simpa using hc.2
          · exact C3_theorem now ms (store ++ [mkInRecord m t now]) r hr hmem
        · rw [if_neg hc] at hr
          exact C3_theorem now ms store r hr hn

/-- Witness for `C3_theorem` at the concrete inbound text message. -/
theorem C3_witness :
    truthy (mkInRecord inMsg1 "hi" "T1").sender = true ∧
    (mkInRecord inMsg1 "hi" "T1").text ≠ "" ∧
    (mkInRecord inMsg1 "hi" "T1").direction = "in" :=
  C3_theorem "T1" [inMsg1] [] (mkInRecord inMsg1 "hi" "T1") (by decide) (by decide)

/-- C4 is false on the code: when the provider's success body has a
`messages` key holding an EMPTY list, `response_data.get("messages",
[{}])[0]` raises `IndexError` — the extraction is not total there.  The
exception lands in the generic `except Exception` handler (`src/app.py`
line 188): the route answers 500 and NO outbound record is appended. -/
theorem C4_counterexample :
    send_message (some "PHONE") validReq emptyMessagesResp "T1" [] =
      ([], .unexpectedError) ∧
    emptyMessagesResp.status = 200 ∧
    emptyMessagesResp.body.messages = some [] ∧
    sendHttpCode .unexpectedError = 500 :=
  ⟨rfl, rfl, rfl, rfl⟩

/-- C4 amended: on a provider success response, the id extraction
tolerates an ABSENT `messages` key — the `[{}]` default makes it yield a
null id and the outbound record is still appended with `id = none`; but
when `messages` is present and empty, the extraction raises
`IndexError`, the request fails with the generic 500 error and nothing
is appended. -/
theorem C4_theorem (pid : Option String) (req : SendRequest) (resp : HttpResponse)
    (now : String) (store : List Record)
    (h1 : truthy req.recipient_wa_id = true) (h2 : truthy req.message_text = true)
    (hok : resp.status < 400) :
    (resp.body.messages = none →
      send_message pid req resp now store =
        (store ++ [{ id := none, sender := pid, recipient := req.recipient_wa_id,
                     text := req.message_text.getD "", direction := "out",
                     timestamp := now, status := some "sent" }],
         .success resp.body none)) ∧
    (resp.body.messages = some [] →
      send_message pid req resp now store = (store, .unexpectedError)) := by
  have hge : ¬ (400 ≤ resp.status) := by omega
  constructor <;> intro hm <;>
    simp [send_message, h1, h2, hge, extractMessageId, hm]

/-- Witness for `C4_theorem` at the two concrete provider responses. -/
theorem C4_witness :
    send_message (some "PHONE") validReq noMessagesResp "T1" [] =
      ([{ id := none, sender := some "PHONE", recipient := some "15552220000",
          text := "hello", direction := "out", timestamp := "T1",
          status := some "sent" }],
       .success noMessagesResp.body none) ∧
    send_message (some "PHONE") validReq emptyMessagesResp "T1" [] =
      ([], .unexpectedError) :=
  ⟨(C4_theorem (some "PHONE") validReq noMessagesResp "T1" [] rfl rfl
      (by decide)).1 rfl,
   (C4_theorem (some "PHONE") validReq emptyMessagesResp "T1" [] rfl rfl
      (by decide)).2 rfl⟩

/-- C5 (confirmed): applying a status event mutates exactly the first
record in store order with matching `id` and `direction = "out"`:
`status` is unconditionally overwritten with the event's status, and
`timestamp_status_update` is set to the ISO-8601 conversion of the
event's string-encoded epoch timestamp when present, and not set when
the timestamp is absent; every other record is untouched. -/
theorem C5_theorem (e : StatusData) :
    ∀ (pre post : List Record) (r : Record),
      (∀ x ∈ pre, ¬(x.id = e.id ∧ x.direction = "out")) →
      r.id = e.id → r.direction = "out" →
      (e.timestamp = none ∨
        ∃ s n, e.timestamp = some s ∧ (s == "") = false ∧ parsePyInt s = some n) →
      applyStatusList e (pre ++ r :: post) =
        (pre ++ { r with
            status := e.status,
            timestamp_status_update :=
              match e.timestamp with
              | none => r.timestamp_status_update
              | some s => some (epochToIso ((parsePyInt s).getD 0)) } :: post, true)
  | [], post, r, _, hid, hdir, hts => by
    simp only [List.nil_append, applyStatusList]
    rw [if_pos ⟨hid, hdir⟩]
    rcases hts with h | ⟨s, n, h, hne, hint⟩
    · rw [h]
      simp [truthy]
    · rw [h]
      simp [truthy, hne, hint]
  | x :: pre, post, r, hpre, hid, hdir, hts => by
    have ih := C5_theorem e pre post r
      (fun y hy => hpre y (List.mem_cons_of_mem x hy)) hid hdir hts
    simp only [List.cons_append, applyStatusList]
    rw [if_neg (hpre x (List.mem_cons_self x pre))]
    rw [List.append_eq, ih]

/-- Witness for `C5_theorem`: the spec's own example — outbound record
`X` receives `{status: delivered, timestamp: "1700000000"}` and ends
with `status = "delivered"` and the converted ISO time. -/
theorem C5_witness :
    applyStatusList statX [outRecX] =
      ([{ outRecX with
          status := some "delivered",
          timestamp_status_update := some "2023-11-14T22:13:20" }], true) := by
  have h := C5_theorem statX [] [] outRecX (by simp) rfl rfl
    (Or.inr ⟨"1700000000", 1700000000, rfl, by decide, by decide⟩)
  exact h.trans (by decide)

/-- C6 (confirmed): the derived text follows the type-dispatch table of
`src/app.py` lines 86-98 — an image or video with no caption (at either
nesting level) yields `"[Image] No caption"` / `"[Video] No caption"`, a
document with no filename yields `"[Document] Unknown file"`, audio
yields the fixed `"[Audio message]"`, and any unrecognized string type
`t` yields `"[" ++ t.toUpper ++ " message]"`. -/
theorem C6_theorem (m : MessageData) :
    (m.mtype = some "image" → m.image.bind MediaObj.caption = none →
      deriveText m = .ok (some "[Image] No caption")) ∧
    (m.mtype = some "video" → m.video.bind MediaObj.caption = none →
      deriveText m = .ok (some "[Video] No caption")) ∧
    (m.mtype = some "document" → m.document.bind DocObj.filename = none →
      deriveText m = .ok (some "[Document] Unknown file")) ∧
    (m.mtype = some "audio" → deriveText m = .ok (some "[Audio message]")) ∧
    (∀ t : String, m.mtype = some t →
      t ∉ (["text", "image", "document", "audio", "video"] : List String) →
      deriveText m = .ok (some ("[" ++ t.toUpper ++ " message]"))) := by
  refine ⟨?_, ?_, ?_, ?_, ?_⟩
  · intro ht hc
    simp [deriveText, ht, hc]
  · intro ht hc
    simp [deriveText, ht, hc]
  · intro ht hc
    simp [deriveText, ht, hc]
  · intro ht
    simp [deriveText, ht]
  · intro t ht hmem
    simp only [List.mem_cons, List.not_mem_nil, or_false, not_or] at hmem
    obtain ⟨h1, h2, h3, h4, h5⟩ := hmem
    simp [deriveText, ht, h1, h2, h3, h4, h5]

/-- Witness for `C6_theorem` at one concrete message per dispatch row. -/
theorem C6_witness :
    deriveText imgMsgNC = .ok (some "[Image] No caption") ∧
    deriveText vidMsgNC = .ok (some "[Video] No caption") ∧
    deriveText docMsgNC = .ok (some "[Document] Unknown file") ∧
    deriveText audMsg = .ok (some "[Audio message]") ∧
    deriveText stickerMsg = .ok (some ("[" ++ "sticker".toUpper ++ " message]")) :=
  ⟨(C6_theorem imgMsgNC).1 rfl rfl,
   (C6_theorem vidMsgNC).2.1 rfl rfl,
   (C6_theorem docMsgNC).2.2.1 rfl rfl,
   (C6_theorem audMsg).2.2.2.1 rfl,
   (C6_theorem stickerMsg).2.2.2.2 "sticker" rfl (by decide)⟩

/-- C7 (confirmed): when the provider answers a send with an error
status (the codes for which `response.raise_for_status()` raises, i.e.
4xx/5xx), the route fails with the upstream-error outcome carrying the
provider status and body, and the store is returned unchanged — no
record is appended on failure. -/
theorem C7_theorem (pid : Option String) (req : SendRequest) (resp : HttpResponse)
    (now : String) (store : List Record)
    (h1 : truthy req.recipient_wa_id = true) (h2 : truthy req.message_text = true)
    (h3 : 400 ≤ resp.status) (h4 : resp.status < 600) :
    send_message pid req resp now store =
      (store, .upstreamError resp.status resp.body) := by
  simp [send_message, h1, h2, h3, h4]

/-- Witness for `C7_theorem` at a simulated provider 500. -/
theorem C7_witness :
    send_message (some "PHONE") validReq err500Resp "T1" [outRecX] =
      ([outRecX], .upstreamError 500 err500Resp.body) :=
  C7_theorem (some "PHONE") validReq err500Resp "T1" [outRecX]
    rfl rfl (by decide) (by decide)

/-- C8 (confirmed): a send request whose recipient or text is absent or
empty fails validation: the outcome is the 400 validation error and the
store is returned unchanged.  The provider response `resp` is
universally quantified and never consulted — no network call is
attempted. -/
theorem C8_theorem (pid : Option String) (req : SendRequest) (resp : HttpResponse)
    (now : String) (store : List Record)
    (h : truthy req.recipient_wa_id = false ∨ truthy req.message_text = false) :
    send_message pid req resp now store = (store, .validationError) ∧
    sendHttpCode (send_message pid req resp now store).2 = 400 := by
  have hcond : (truthy req.recipient_wa_id && truthy req.message_text) = false := by
    rcases h with h | h <;> simp [h]
  constructor <;> simp [send_message, hcond, sendHttpCode]

/-- Witness for `C8_theorem` at an absent recipient (with a provider-500
response supplied, to stress that it is never consulted). -/
theorem C8_witness :
    send_message (some "PHONE") emptyRecipientReq err500Resp "T1" [outRecX] =
      ([outRecX], .validationError) ∧
    sendHttpCode (send_message (some "PHONE") emptyRecipientReq err500Resp "T1"
      [outRecX]).2 = 400 :=
  C8_theorem (some "PHONE") emptyRecipientReq err500Resp "T1" [outRecX] (Or.inl rfl)

/-- C9 (confirmed): a status event whose `id` matches no stored record
with `direction = "out"` leaves the store unchanged in length and
content, and no exception is raised — the update is silently
discarded. -/
theorem C9_theorem (e : StatusData) :
    ∀ store : List Record,
      (∀ r ∈ store, ¬(r.id = e.id ∧ r.direction = "out")) →
      applyStatusList e store = (store, true)
  | [], _ => rfl
  | r :: rs, h => by
    simp only [applyStatusList]
    rw [if_neg (h r (List.mem_cons_self r rs))]
    rw [C9_theorem e rs (fun y hy => h y (List.mem_cons_of_mem r hy))]

/-- Witness for `C9_theorem`: the unknown-id event `statY` against a
store holding an outbound record `X` and an inbound record. -/
theorem C9_witness :
    applyStatusList statY [outRecX, mkInRecord inMsg1 "hi" "T1"] =
      ([outRecX, mkInRecord inMsg1 "hi" "T1"], true) :=
  C9_theorem statY [outRecX, mkInRecord inMsg1 "hi" "T1"] (by decide)

/-- C10 (confirmed): the status correlator never reads the event's
`recipient_id` — two status events agreeing on `id`, `status` and
`timestamp` (their `recipient_id` fields arbitrary, possibly absent)
produce identical stores on any input store. -/
theorem C10_theorem (e1 e2 : StatusData)
    (hid : e1.id = e2.id) (hst : e1.status = e2.status)
    (hts : e1.timestamp = e2.timestamp) :
    ∀ store : List Record, applyStatusList e1 store = applyStatusList e2 store
  | [] => rfl
  | r :: rs => by
    simp only [applyStatusList, hid, hst, hts]
    rw [C10_theorem e1 e2 hid hst hts rs]

/-- Witness for `C10_theorem`: `statX` and the same event with
`recipient_id` removed act identically on the store `[outRecX]`. -/
theorem C10_witness :
    applyStatusList statX [outRecX] = applyStatusList statXNoRecip [outRecX] :=
  C10_theorem statX statXNoRecip rfl rfl rfl [outRecX]
